import Mathlib

/-!
# Verification of the instagrapi `MediaMixin` (identifier normalization,
# metadata fetch fallback, and cache coherency)

Shallow embedding of `src/instagrapi/mixins/media.py`.  Python strings are
modeled as `List Char`; the Python object heap is explicit (a list of
`Media` values indexed by address) so that reference identity and
`deepcopy` are observable; the external transport collaborators
(`public_graphql_request`, `inject_sessionid_to_public`, `private_request`)
are oracles supplied by an `Env`, consumed call-by-call via counters held
in the client state.  Exceptions are the `PyErr` type threaded through
`Except`.
-/

namespace Instagrapi

/-- Exception taxonomy of the code: `ClientError` and its subclasses
(`ClientLoginRequired`, `ClientNotFoundError`, `MediaNotFound`) plus the
builtin Python errors the module can raise (`AssertionError` from the
`assert` statements, `ValueError` from tuple unpacking / `int()`), and a
catch-all for exceptions that are not `ClientError` (these are what
`media_info` logs before falling back). -/
inductive PyErr where
  | clientLoginRequired
  | mediaNotFound
  | clientNotFoundError
  | clientError (msg : List Char)
  | assertionError (msg : List Char)
  | valueError
  | otherException (msg : List Char)
deriving DecidableEq, Repr

/-- `isinstance(e, ClientError)`: `ClientLoginRequired`, `MediaNotFound`
and `ClientNotFoundError` all subclass `ClientError` in
`instagrapi.exceptions`. -/
def PyErr.isClientError : PyErr → Bool
  | .clientLoginRequired => true
  | .mediaNotFound => true
  | .clientNotFoundError => true
  | .clientError _ => true
  | _ => false

/-- Python `str.split(sep)` (no maxsplit): `"".split("_") == [""]`,
separators delimit possibly-empty segments. -/
def pySplit (sep : Char) : List Char → List (List Char)
  | [] => [[]]
  | c :: cs =>
    if c = sep then [] :: pySplit sep cs
    else
      match pySplit sep cs with
      | [] => [[c]]
      | g :: gs => (c :: g) :: gs

/-- Python `str.split(sep, 1)` restricted to the information the code
uses: `some (before, after)` splitting at the first separator, `none`
when the separator is absent (in which case the two-way tuple unpacking
in the code raises `ValueError`). -/
def splitFirst (sep : Char) : List Char → Option (List Char × List Char)
  | [] => none
  | c :: cs =>
    if c = sep then some ([], cs)
    else
      match splitFirst sep cs with
      | some (a, b) => some (c :: a, b)
      | none => none

/-- Decimal value of a digit string (used by `pyInt?` below). -/
def digitsToNat (cs : List Char) : Nat :=
  cs.foldl (fun a c => a * 10 + (c.toNat - 48)) 0

/-- Python `str.isdigit()` for ASCII content: nonempty and all digits. -/
def pyIsDigit (cs : List Char) : Bool :=
  !cs.isEmpty && cs.all Char.isDigit

/-- Python `int(s)` on the strings this module feeds it: succeeds on a
nonempty all-digit string, raises `ValueError` otherwise. -/
def pyInt? (cs : List Char) : Option Nat :=
  if pyIsDigit cs then some (digitsToNat cs) else none

/-- The character for a decimal digit. -/
def digitChar : Nat → Char
  | 0 => '0' | 1 => '1' | 2 => '2' | 3 => '3' | 4 => '4'
  | 5 => '5' | 6 => '6' | 7 => '7' | 8 => '8' | _ => '9'

/-- Decimal digits of `n`, most significant first (`fuel ≥ n` bounds the
recursion; `natStr` below passes `n` itself). -/
def natDigitsAux : Nat → Nat → List Char
  | 0, _ => []
  | fuel + 1, n =>
    if n = 0 then []
    else natDigitsAux fuel (n / 10) ++ [digitChar (n % 10)]

/-- Decimal rendering of a `Nat` (Python `str(n)` / `"%s" % n` for the
nonnegative integers this module handles): digit characters only. -/
def natStr (n : Nat) : List Char :=
  if n = 0 then ['0'] else natDigitsAux n n

/--
`MediaMixin.media_pk(media_id)` (media.py:56-74):
```
media_pk = str(media_id)
if "_" in media_pk:
    media_pk, _ = media_id.split("_")
return int(media_pk)
```
The two-element unpacking raises `ValueError` when `split` yields more
than two parts (two or more separators); `int` raises `ValueError` on a
non-numeric segment. -/
def media_pk (s : List Char) : Except PyErr Nat :=
  if '_' ∈ s then
    match pySplit '_' s with
    | [a, _b] =>
      match pyInt? a with
      | some n => .ok n
      | none => .error .valueError
    | _ => .error .valueError
  else
    match pyInt? s with
    | some n => .ok n
    | none => .error .valueError

/-- The fields of a fetched `Media` object that this module reads
(`media.product_type`, `media.user.pk`), plus a payload tag that keeps
distinct fetched objects distinguishable. -/
structure Media where
  pk : Nat
  userPk : Nat
  productType : List Char
  payload : Nat
deriving DecidableEq, Repr, Inhabited

/-- A user tag argument to `media_edit`: `tag.user.pk` plus the decimal
renderings of the float positions `tag.x`, `tag.y` (only their serialized
form reaches the payload). -/
structure Usertag where
  userPk : Nat
  posX : List Char
  posY : List Char
deriving DecidableEq, Repr

/-- Observable effects of a run: transport calls (with the arguments the
code passes), the session-elevation side effect, and `logger.exception`. -/
inductive Event where
  | gqlCall (pk : Nat)
  | injectCall
  | v1Call (pk : Nat)
  | logged (e : PyErr)
  | deleteReq (mediaId : List Char)
  | editReq (mediaId : List Char) (payload : List (List Char × List Char))
  | likeReq (mediaId : List Char) (revert : Bool) (feedPosition : Nat)
deriving DecidableEq, Repr

/-- Events that are network calls to the platform (the "transport
invocations" the spec counts); elevation and logging are local. -/
def Event.isFetch : Event → Bool
  | .gqlCall _ => true
  | .v1Call _ => true
  | .deleteReq _ => true
  | .editReq _ _ => true
  | .likeReq _ _ _ => true
  | _ => false

/-- Oracles for the external collaborators, indexed by how many calls of
that kind the client has already made: outcome of `media_info_gql`'s
transport+extraction, of `inject_sessionid_to_public`, of
`media_info_v1`'s raw `private_request`, of the delete / edit / like
`private_request`s, and of `random.randint(0, 6)`. -/
structure Env where
  gql : Nat → Except PyErr Media
  inject : Nat → Bool
  v1 : Nat → Except PyErr Media
  del : Nat → Except PyErr Bool
  edit : Nat → Except PyErr Nat
  like : Nat → Except PyErr (List Char)
  rand : Nat → Nat

/-- Client state: the pk-keyed metadata cache (`_medias_cache`, storing
heap addresses as a Python dict stores references), the explicit object
heap, the session (`self.user_id`), per-oracle call counters, and the
event trace. -/
structure St where
  cache : List (Nat × Nat)
  heap : List Media
  userId : Option Nat
  nGql : Nat
  nInject : Nat
  nV1 : Nat
  nPriv : Nat
  nRand : Nat
  trace : List Event
deriving DecidableEq, Repr

/-- Dict lookup in `_medias_cache`. -/
def cacheGet : List (Nat × Nat) → Nat → Option Nat
  | [], _ => none
  | (k, v) :: rest, pk => if k = pk then some v else cacheGet rest pk

/-- Dict assignment `_medias_cache[pk] = addr` (wholesale replace). -/
def cacheSet (c : List (Nat × Nat)) (pk addr : Nat) : List (Nat × Nat) :=
  (pk, addr) :: c.filter (fun kv => kv.1 ≠ pk)

/-- Dict removal `_medias_cache.pop(pk, None)` (no-op when absent). -/
def cachePop (c : List (Nat × Nat)) (pk : Nat) : List (Nat × Nat) :=
  c.filter (fun kv => kv.1 ≠ pk)

/-- Heap read at an address (addresses handed out by `alloc` are always
in range, so the default is never observable). -/
def heapGet : List Media → Nat → Media
  | [], _ => default
  | m :: _, 0 => m
  | _ :: h, n + 1 => heapGet h n

/-- In-place mutation of the object stored at an address (what Python
caller code could do to an object it was handed). -/
def heapSet : List Media → Nat → Media → List Media
  | [], _, _ => []
  | _ :: h, 0, m => m :: h
  | x :: h, n + 1, m => x :: heapSet h n m

/-- Allocate a fresh object holding value `m`; `deepcopy` of an address
is `alloc` of the value read there. -/
def alloc (st : St) (m : Media) : Nat × St :=
  (st.heap.length, { st with heap := st.heap ++ [m] })

/-- Python truthiness of `self.user_id` in `assert self.user_id`. -/
def truthy : Option Nat → Bool
  | none => false
  | some u => u ≠ 0

/-- `"Media not found" in str(e)`: substring test via `splitOn`. -/
def hasSub (s pat : List Char) : Bool :=
  decide (2 ≤ (pySplit1List pat s).length)
where
  pySplit1List (pat s : List Char) : List (List Char) :=
    (String.mk s).splitOn (String.mk pat) |>.map String.data

/-- `str(e)` for the error classes, as far as the `"Media not found"`
containment test in `media_info_v1` can observe it. -/
def strOf : PyErr → List Char
  | .clientError m => m
  | .clientLoginRequired => "login_required".data
  | .mediaNotFound => "Media not found".data
  | .clientNotFoundError => "Not found".data
  | .assertionError m => m
  | .valueError => "ValueError".data
  | .otherException m => m

/-- `media_info_gql(media_pk)` (media.py:150-184) as seen through the
oracle: re-normalizing the already-numeric pk and encoding the shortcode
are pure, and the `public_graphql_request` + optional `location_complete`
+ `extract_media_gql` pipeline yields the oracle's outcome for this call
index (a `Media` on success, `MediaNotFound` / `ClientLoginRequired` /
transport errors on failure). -/
def media_info_gql_run (env : Env) (st : St) (pk : Nat) :
    Except PyErr Media × St :=
  (env.gql st.nGql,
   { st with nGql := st.nGql + 1, trace := st.trace ++ [.gqlCall pk] })

/-- `inject_sessionid_to_public()` collaborator call. -/
def inject_run (env : Env) (st : St) : Bool × St :=
  (env.inject st.nInject,
   { st with nInject := st.nInject + 1, trace := st.trace ++ [.injectCall] })

/-- The error mapping of `media_info_v1` (media.py:200-207):
`ClientNotFoundError` (and its subclass `MediaNotFound`) becomes
`MediaNotFound`; any other `ClientError` whose `str` contains
`"Media not found"` becomes `MediaNotFound`; everything else re-raises
unchanged (non-`ClientError` exceptions are not caught at all). -/
def v1MapErr : PyErr → PyErr
  | .clientNotFoundError => .mediaNotFound
  | .mediaNotFound => .mediaNotFound
  | e =>
    if e.isClientError && hasSub (strOf e) ("Media not found".data)
    then .mediaNotFound else e

/-- `media_info_v1(media_pk)` (media.py:186-208): one `private_request`
to `media/{pk}/info/` whose outcome comes from the oracle, with the
error mapping above; on success `extract_media_v1(result["items"].pop())`
is the oracle's `Media`. -/
def media_info_v1_run (env : Env) (st : St) (pk : Nat) :
    Except PyErr Media × St :=
  let r := env.v1 st.nV1
  let st' : St :=
    { st with nV1 := st.nV1 + 1, trace := st.trace ++ [.v1Call pk] }
  match r with
  | .ok m => (.ok m, st')
  | .error e => (.error (v1MapErr e), st')

/-- Store the fetched media in the cache and return a deep copy
(media.py:241-242): `self._medias_cache[media_pk] = media` stores the
reference, `return deepcopy(self._medias_cache[media_pk])` allocates a
fresh copy for the caller. -/
def finishStore (st : St) (pk : Nat) (m : Media) : Except PyErr Nat × St :=
  let (c, st1) := alloc st m
  let st2 : St := { st1 with cache := cacheSet st1.cache pk c }
  let (a, st3) := alloc st2 (heapGet st2.heap c)
  (.ok a, st3)

/-- `media_info(media_pk, use_cache=True)` (media.py:210-242), returning
the heap address of the `Media` object handed to the caller:
```
media_pk = self.media_pk(media_pk)
if not use_cache or media_pk not in self._medias_cache:
    try:
        try:
            media = self.media_info_gql(media_pk)
        except ClientLoginRequired as e:
            if not self.inject_sessionid_to_public():
                raise e
            media = self.media_info_gql(media_pk)  # retry
    except Exception as e:
        if not isinstance(e, ClientError):
            self.logger.exception(e)
        media = self.media_info_v1(media_pk)
    self._medias_cache[media_pk] = media
return deepcopy(self._medias_cache[media_pk])
```
Note the `raise e` lands in the outer `except Exception`, which falls
through to `media_info_v1`. -/
def media_info_run (env : Env) (st : St) (idStr : List Char)
    (useCache : Bool) : Except PyErr Nat × St :=
  match media_pk idStr with
  | .error e => (.error e, st)
  | .ok pk =>
    match (if useCache then cacheGet st.cache pk else none) with
    | some addr =>
      let (a, st') := alloc st (heapGet st.heap addr)
      (.ok a, st')
    | none =>
      let (r1, st1) := media_info_gql_run env st pk
      let inner : Except PyErr Media × St :=
        match r1 with
        | .ok m => (.ok m, st1)
        | .error .clientLoginRequired =>
          let (ok, st2) := inject_run env st1
          if ok then media_info_gql_run env st2 pk
          else (.error .clientLoginRequired, st2)
        | .error e => (.error e, st1)
      match inner with
      | (.ok m, st3) => finishStore st3 pk m
      | (.error e, st3) =>
        let st4 : St :=
          if e.isClientError then st3
          else { st3 with trace := st3.trace ++ [.logged e] }
        match media_info_v1_run env st4 pk with
        | (.ok m, st5) => finishStore st5 pk m
        | (.error e', st5) => (.error e', st5)

/-- `media_user(media_pk)` (media.py:329-343):
`return self.media_info(media_pk).user`, reading the `user.pk` field off
the returned object. -/
def media_user_run (env : Env) (st : St) (idStr : List Char) :
    Except PyErr Nat × St :=
  match media_info_run env st idStr true with
  | (.ok a, st') => (.ok (heapGet st'.heap a).userPk, st')
  | (.error e, st') => (.error e, st')

/-- `media_id(media_pk)` (media.py:29-54): identity when the separator is
already present; otherwise assert all-digit, fetch the owner via
`media_user`, and append `"_<owner pk>"`. -/
def media_id_run (env : Env) (st : St) (s : List Char) :
    Except PyErr (List Char) × St :=
  if '_' ∈ s then (.ok s, st)
  else if !pyIsDigit s then
    (.error (.assertionError ("media_id must been contain digits".data)), st)
  else
    match media_user_run env st s with
    | (.ok userPk, st') => (.ok (s ++ '_' :: natStr userPk), st')
    | (.error e, st') => (.error e, st')

/-- `media_delete(media_id)` (media.py:244-266): assert session,
normalize to composite id, `private_request` the delete, then — only
after the request returned — pop the cache entry, and return
`result.get("did_delete")`. -/
def media_delete_run (env : Env) (st : St) (idStr : List Char) :
    Except PyErr Bool × St :=
  if !truthy st.userId then
    (.error (.assertionError ("Login required".data)), st)
  else
    match media_id_run env st idStr with
    | (.error e, st1) => (.error e, st1)
    | (.ok mid, st1) =>
      let r := env.del st1.nPriv
      let st2 : St :=
        { st1 with nPriv := st1.nPriv + 1, trace := st1.trace ++ [.deleteReq mid] }
      match r with
      | .error e => (.error e, st2)
      | .ok didDelete =>
        match media_pk mid with
        | .error e => (.error e, st2)
        | .ok pk => (.ok didDelete, { st2 with cache := cachePop st2.cache pk })

/-- `location_build(location)` collaborator: serializes the optional
location into the standard payload.  Modeled as an injective rendering
of the location reference; only its presence in the standard payload
(and its independence from everything else) matters here. -/
def location_build : Option Nat → List Char
  | none => "{}".data
  | some l => ("\x7b\"facebook_places_id\": ".data ++ natStr l ++ "\x7d".data)

/-- `json.dumps({"in": usertags})` over the comprehension
`{"user_id": tag.user.pk, "position": [tag.x, tag.y]}` (media.py:300-303). -/
def usertagsJson (tags : List Usertag) : List Char :=
  "\x7b\"in\": [".data
    ++ List.intercalate (", ".data)
        (tags.map fun t =>
          "\x7b\"user_id\": ".data ++ natStr t.userPk
            ++ ", \"position\": [".data ++ t.posX ++ ", ".data ++ t.posY
            ++ "]\x7d".data)
    ++ "]\x7d".data

/-- The standard edit payload (media.py:304-311). -/
def stdEditData (caption : List Char) (loc : Option Nat)
    (tags : List Usertag) : List (List Char × List Char) :=
  [ ("caption_text".data, caption),
    ("container_module".data, "edit_media_info".data),
    ("feed_position".data, "0".data),
    ("location".data, location_build loc),
    ("usertags".data, usertagsJson tags),
    ("is_carousel_bumped_post".data, "false".data) ]

/-- The IGTV title/caption recombination (media.py:313-317): with no
explicit title, split the caption at its first line break
(`caption.split("\n", 1)`), or on `ValueError` truncate to
`caption[:75]` with the caption left whole. -/
def igtvTitleCaption (title caption : List Char) :
    List Char × List Char :=
  if title.isEmpty then
    match splitFirst '\n' caption with
    | some (a, b) => (a, b)
    | none => (caption.take 75, caption)
  else (title, caption)

/-- `media_edit(media_id, caption, title, usertags, location)`
(media.py:268-327): assert session, normalize id, read metadata through
`media_info` (cache-served when present), build the standard payload; if
`media.product_type == "igtv"` replace it wholesale with the three-key
IGTV payload; pop the cache entry, then `private_request` the edit and
return the raw response.  The `editReq` event records the
operation-specific payload the mixin builds; `with_default_data`, the
external collaborator that merges fixed client-default fields on top of
it before the request, is applied uniformly and is elided. -/
def media_edit_run (env : Env) (st : St) (idStr caption title : List Char)
    (usertags : List Usertag) (loc : Option Nat) :
    Except PyErr Nat × St :=
  if !truthy st.userId then
    (.error (.assertionError ("Login required".data)), st)
  else
    match media_id_run env st idStr with
    | (.error e, st1) => (.error e, st1)
    | (.ok mid, st1) =>
      match media_info_run env st1 mid true with
      | (.error e, st2) => (.error e, st2)
      | (.ok a, st2) =>
        let media := heapGet st2.heap a
        let data :=
          if media.productType = "igtv".data then
            let (t, c) := igtvTitleCaption title caption
            [ ("caption_text".data, c),
              ("title".data, t),
              ("igtv_ads_toggled_on".data, "0".data) ]
          else stdEditData caption loc usertags
        match media_pk mid with
        | .error e => (.error e, st2)
        | .ok pk =>
          let st3 : St := { st2 with cache := cachePop st2.cache pk }
          let r := env.edit st3.nPriv
          let st4 : St :=
            { st3 with nPriv := st3.nPriv + 1,
                       trace := st3.trace ++ [.editReq mid data] }
          (r, st4)

/-- `media_like(media_id, revert=False)` (media.py:363-394): assert
session, normalize id, send the engagement payload (with the randomized
`feed_position` in `0..6`), return `result['status'] == 'ok'`. -/
def media_like_run (env : Env) (st : St) (idStr : List Char)
    (revert : Bool) : Except PyErr Bool × St :=
  if !truthy st.userId then
    (.error (.assertionError ("Login required".data)), st)
  else
    match media_id_run env st idStr with
    | (.error e, st1) => (.error e, st1)
    | (.ok mid, st1) =>
      let fp := env.rand st1.nRand % 7
      let r := env.like st1.nPriv
      let st2 : St :=
        { st1 with nPriv := st1.nPriv + 1, nRand := st1.nRand + 1,
                   trace := st1.trace ++ [.likeReq mid revert fp] }
      match r with
      | .error e => (.error e, st2)
      | .ok status => (.ok (status = "ok".data), st2)

/-- `media_unlike(media_id)` (media.py:396-410): `media_like(id, revert=True)`. -/
def media_unlike_run (env : Env) (st : St) (idStr : List Char) :
    Except PyErr Bool × St :=
  media_like_run env st idStr true

/-- A well-formed client state: every address stored in the cache points
into the heap.  Every state reachable from a fresh client (empty cache,
empty heap) satisfies this, since cache writes always store a
just-allocated address. -/
def St.WF (st : St) : Prop :=
  ∀ kv ∈ st.cache, kv.2 < st.heap.length

instance (st : St) : Decidable st.WF :=
  inferInstanceAs (Decidable (∀ kv ∈ st.cache, kv.2 < st.heap.length))

instance {ε α : Type} [DecidableEq ε] [DecidableEq α] :
    DecidableEq (Except ε α) := fun a b =>
  match a, b with
  | .ok x, .ok y =>
    if h : x = y then .isTrue (by rw [h])
    else .isFalse (fun hc => by cases hc; exact h rfl)
  | .error x, .error y =>
    if h : x = y then .isTrue (by rw [h])
    else .isFalse (fun hc => by cases hc; exact h rfl)
  | .ok _, .error _ => .isFalse (fun hc => by cases hc)
  | .error _, .ok _ => .isFalse (fun hc => by cases hc)

/-! ## Lemmas about the string primitives -/

theorem pySplit_ne_nil (sep : Char) (s : List Char) : pySplit sep s ≠ [] := by
  induction s with
  | nil => simp [pySplit]
  | cons c cs ih =>
    simp only [pySplit]
    split
    · simp
    · split
      · simp
      · simp

theorem pySplit_of_not_mem {sep : Char} {s : List Char} (h : sep ∉ s) :
    pySplit sep s = [s] := by
  induction s with
  | nil => rfl
  | cons c cs ih =>
    simp only [List.mem_cons, not_or] at h
    simp only [pySplit]
    rw [if_neg (fun hc => h.1 hc.symm), ih h.2]

theorem pySplit_append {sep : Char} {a : List Char} (r : List Char)
    (h : sep ∉ a) : pySplit sep (a ++ sep :: r) = a :: pySplit sep r := by
  induction a with
  | nil => simp [pySplit]
  | cons c cs ih =>
    simp only [List.mem_cons, not_or] at h
    simp only [List.cons_append, pySplit]
    rw [if_neg (fun hc => h.1 hc.symm)]
    rw [show cs.append (sep :: r) = cs ++ sep :: r from rfl, ih h.2]

theorem splitFirst_of_not_mem {sep : Char} {s : List Char} (h : sep ∉ s) :
    splitFirst sep s = none := by
  induction s with
  | nil => rfl
  | cons c cs ih =>
    simp only [List.mem_cons, not_or] at h
    simp only [splitFirst]
    rw [if_neg (fun hc => h.1 hc.symm), ih h.2]

theorem splitFirst_append {sep : Char} {a : List Char} (r : List Char)
    (h : sep ∉ a) : splitFirst sep (a ++ sep :: r) = some (a, r) := by
  induction a with
  | nil => simp [splitFirst]
  | cons c cs ih =>
    simp only [List.mem_cons, not_or] at h
    simp only [List.cons_append, splitFirst]
    rw [if_neg (fun hc => h.1 hc.symm)]
    rw [show cs.append (sep :: r) = cs ++ sep :: r from rfl, ih h.2]

theorem digitChar_ne_underscore (d : Nat) : digitChar d ≠ '_' := by
  unfold digitChar
  split <;> decide

theorem natDigitsAux_no_underscore (fuel n : Nat) :
    '_' ∉ natDigitsAux fuel n := by
  induction fuel generalizing n with
  | zero => simp [natDigitsAux]
  | succ f ih =>
    simp only [natDigitsAux]
    split
    · simp
    · intro hmem
      rcases List.mem_append.mp hmem with h | h
      · exact ih _ h
      · simp only [List.mem_singleton] at h
        exact digitChar_ne_underscore _ h.symm

theorem natStr_no_underscore (n : Nat) : '_' ∉ natStr n := by
  unfold natStr
  split
  · decide
  · exact natDigitsAux_no_underscore _ _

/-! ## Lemmas about `media_pk` -/

theorem media_pk_no_sep {s : List Char} (h : '_' ∉ s) :
    media_pk s = (pyInt? s).elim (Except.error PyErr.valueError) Except.ok := by
  unfold media_pk
  rw [if_neg h]
  cases pyInt? s <;> rfl

theorem media_pk_one_sep {a : List Char} (b : List Char)
    (ha : '_' ∉ a) (hb : '_' ∉ b) :
    media_pk (a ++ '_' :: b)
      = (pyInt? a).elim (Except.error PyErr.valueError) Except.ok := by
  unfold media_pk
  rw [if_pos (by simp), pySplit_append b ha, pySplit_of_not_mem hb]
  show (match pyInt? a with
        | some n => Except.ok n
        | none => Except.error PyErr.valueError)
      = (pyInt? a).elim (Except.error PyErr.valueError) Except.ok
  cases pyInt? a <;> rfl

theorem media_pk_two_sep {a b : List Char} (c : List Char)
    (ha : '_' ∉ a) (hb : '_' ∉ b) :
    media_pk (a ++ '_' :: (b ++ '_' :: c)) = Except.error PyErr.valueError := by
  unfold media_pk
  rw [if_pos (by simp), pySplit_append _ ha, pySplit_append _ hb]
  cases h : pySplit '_' c with
  | nil => exact absurd h (pySplit_ne_nil _ _)
  | cons g gs => rfl

/-! ## Claim C7 -/

/-- **C7 counterexample.**  The claim says `media_pk` on a string with
separators returns the first segment's integer "regardless of how many
separators follow"; but `media_pk, _ = media_id.split("_")` unpacks the
split into exactly two variables, so `"1_2_3"` raises `ValueError`
instead of returning `1`. -/
theorem C7_counterexample :
    media_pk ("1_2_3".data) = Except.error PyErr.valueError ∧
      media_pk ("1_2_3".data) ≠ Except.ok 1 := by
  constructor
  · rfl
  · decide

/-- **C7 (amended).**  `media_pk` parses a separator-free string whole
with `int`; with exactly one `'_'` it returns the integer value of the
segment before it; with two or more separators the two-element tuple
unpacking of `split("_")` raises `ValueError`. -/
theorem C7_corrected (s a b c : List Char) :
    ('_' ∉ s →
      media_pk s = (pyInt? s).elim (Except.error PyErr.valueError) Except.ok)
    ∧ ('_' ∉ a → '_' ∉ b →
      media_pk (a ++ '_' :: b)
        = (pyInt? a).elim (Except.error PyErr.valueError) Except.ok)
    ∧ ('_' ∉ a → '_' ∉ b →
      media_pk (a ++ '_' :: (b ++ '_' :: c)) = Except.error PyErr.valueError) :=
  ⟨fun h => media_pk_no_sep h,
   fun ha hb => media_pk_one_sep b ha hb,
   fun ha hb => media_pk_two_sep c ha hb⟩

/-- Instantiation of `C7_corrected` on `"12_34"`. -/
theorem C7_corrected_witness :
    media_pk ("12".data ++ '_' :: "34".data)
      = (pyInt? ("12".data)).elim (Except.error PyErr.valueError) Except.ok :=
  (C7_corrected ("12".data) ("12".data) ("34".data) ("".data)).2.1
    (by decide) (by decide)

/-! ## Claim C6 -/

/-- **C6.**  For every identifier accepted by `media_id` (already
composite, or all-digit with a successful owner lookup), extracting the
primary key from the normalized composite id agrees with extracting it
directly: `media_pk (media_id x) = media_pk x`. -/
theorem C6_pk_of_id_roundtrip (env : Env) (st : St) (s m : List Char)
    (st' : St) (h : media_id_run env st s = (.ok m, st')) :
    media_pk m = media_pk s := by
  unfold media_id_run at h
  by_cases hsep : '_' ∈ s
  · rw [if_pos hsep] at h
    cases h
    rfl
  · rw [if_neg hsep] at h
    cases hdig : pyIsDigit s with
    | false => rw [hdig] at h; cases h
    | true =>
      rw [hdig] at h
      simp only [Bool.not_true, Bool.false_eq_true, if_false] at h
      rcases hu : media_user_run env st s with ⟨r, st1⟩
      rw [hu] at h
      cases r with
      | error e => cases h
      | ok u =>
        cases h
        rw [media_pk_one_sep (natStr u) hsep (natStr_no_underscore u),
            media_pk_no_sep hsep]

/-- A transport environment whose graph strategy always succeeds with a
media item owned by user 42 (used to exercise the owner lookup). -/
def envOwner42 : Env where
  gql := fun _ => Except.ok
    { pk := 7, userPk := 42, productType := "feed".data, payload := 0 }
  inject := fun _ => false
  v1 := fun _ => Except.error PyErr.mediaNotFound
  del := fun _ => Except.ok true
  edit := fun _ => Except.ok 0
  like := fun _ => Except.ok ("ok".data)
  rand := fun _ => 0

/-- A fresh client state: empty cache and heap, no session. -/
def stFresh : St where
  cache := []
  heap := []
  userId := none
  nGql := 0
  nInject := 0
  nV1 := 0
  nPriv := 0
  nRand := 0
  trace := []

/-- Instantiation of `C6_pk_of_id_roundtrip`: a fresh client whose graph
strategy returns a media owned by user 42 normalizes `"7"` to `"7_42"`,
and both extract primary key `7`. -/
theorem C6_witness :
    media_pk ("7_42".data) = media_pk ("7".data) :=
  C6_pk_of_id_roundtrip envOwner42 stFresh ("7".data) ("7_42".data)
    (media_id_run envOwner42 stFresh ("7".data)).2 (by decide)

/-! ## Lemmas about the cache and the heap -/

theorem cacheGet_cacheSet_self (c : List (Nat × Nat)) (pk v : Nat) :
    cacheGet (cacheSet c pk v) pk = some v := by
  simp [cacheSet, cacheGet]

theorem cacheGet_mem {c : List (Nat × Nat)} {pk v : Nat}
    (h : cacheGet c pk = some v) : (pk, v) ∈ c := by
  induction c with
  | nil => cases h
  | cons kv rest ih =>
    simp only [cacheGet] at h
    by_cases hk : kv.1 = pk
    · rw [if_pos hk] at h
      injection h with h
      exact List.mem_cons.mpr (Or.inl (by cases kv; simp_all))
    · rw [if_neg hk] at h
      exact List.mem_cons.mpr (Or.inr (ih h))

theorem cacheGet_cachePop_self (c : List (Nat × Nat)) (pk : Nat) :
    cacheGet (cachePop c pk) pk = none := by
  induction c with
  | nil => rfl
  | cons kv rest ih =>
    by_cases h : kv.1 = pk
    · simpa [cachePop, List.filter_cons, h] using ih
    · simpa [cachePop, List.filter_cons, h, cacheGet] using ih

theorem heapGet_append_lt {h : List Media} (l : List Media) {n : Nat}
    (hn : n < h.length) : heapGet (h ++ l) n = heapGet h n := by
  induction h generalizing n with
  | nil => simp at hn
  | cons m rest ih =>
    cases n with
    | zero => rfl
    | succ k =>
      simp only [List.length_cons] at hn
      exact ih (by omega)

theorem heapGet_append_len (h : List Media) (m : Media) (l : List Media) :
    heapGet (h ++ m :: l) h.length = m := by
  induction h with
  | nil => rfl
  | cons x rest ih => simpa [heapGet] using ih

theorem heapGet_heapSet_ne (h : List Media) (k n : Nat) (m : Media)
    (hne : n ≠ k) : heapGet (heapSet h k m) n = heapGet h n := by
  induction h generalizing k n with
  | nil => rfl
  | cons x rest ih =>
    cases k with
    | zero =>
      cases n with
      | zero => exact absurd rfl hne
      | succ j => rfl
    | succ kk =>
      cases n with
      | zero => rfl
      | succ j => exact ih kk j (by omega)

/-! ## Characterization of `media_info_run` -/

/-- `finishStore` appends the fetched object and its deep copy to the
heap, points the cache at the stored original, and returns the copy's
address. -/
theorem finishStore_eq (st : St) (pk : Nat) (m : Media) :
    finishStore st pk m
      = (.ok (st.heap.length + 1),
         { st with cache := cacheSet st.cache pk st.heap.length,
                   heap := st.heap ++ [m, m] }) := by
  unfold finishStore alloc
  simp only [heapGet_append_len, List.length_append, List.append_assoc,
    List.singleton_append, List.length_cons, List.length_nil]

/-- A successful `finishStore` leaves the key cached at an address
strictly below the returned copy's address, both in range, holding equal
values. -/
theorem finishStore_ok_cached (st : St) (pk : Nat) (m : Media) (a : Nat)
    (st' : St) (h : finishStore st pk m = (.ok a, st')) :
    ∃ c, cacheGet st'.cache pk = some c ∧ c < a ∧ a < st'.heap.length ∧
      heapGet st'.heap a = heapGet st'.heap c := by
  rw [finishStore_eq] at h
  injection h with h1 h2
  injection h1 with h1
  subst h1
  subst h2
  refine ⟨st.heap.length, cacheGet_cacheSet_self _ _ _, by omega, by simp, ?_⟩
  have e2 : st.heap ++ [m, m] = (st.heap ++ [m]) ++ [m] := by simp
  have hA : heapGet (st.heap ++ [m, m]) (st.heap.length + 1) = m := by
    rw [e2]
    have := heapGet_append_len (st.heap ++ [m]) m []
    simpa using this
  have hC : heapGet (st.heap ++ [m, m]) st.heap.length = m :=
    heapGet_append_len st.heap m [m]
  simp only [hA, hC]

/-- On a cache hit (`use_cache=True`, key present) `media_info` performs
no oracle call at all: it just allocates and returns a deep copy of the
cached object. -/
theorem media_info_run_hit (env : Env) (st : St) (s : List Char)
    (pk addr : Nat) (hpk : media_pk s = .ok pk)
    (hc : cacheGet st.cache pk = some addr) :
    media_info_run env st s true
      = (.ok st.heap.length,
         { st with heap := st.heap ++ [heapGet st.heap addr] }) := by
  simp only [media_info_run, hpk, hc, alloc, if_true]

/-- Every successful `media_info` call leaves the key cached, at an
address different from (and holding the same value as) the returned
copy's address. -/
theorem media_info_run_ok_cached (env : Env) (st : St) (s : List Char)
    (pk a : Nat) (st' : St) (hWF : st.WF)
    (hpk : media_pk s = .ok pk)
    (h : media_info_run env st s true = (.ok a, st')) :
    ∃ c, cacheGet st'.cache pk = some c ∧ c < a ∧ a < st'.heap.length ∧
      heapGet st'.heap a = heapGet st'.heap c := by
  simp only [media_info_run, hpk, if_true] at h
  cases hc : cacheGet st.cache pk with
  | some addr =>
    rw [hc] at h
    simp only [alloc] at h
    injection h with h1 h2
    injection h1 with h1
    subst h1
    subst h2
    have haddr : addr < st.heap.length := hWF _ (cacheGet_mem hc)
    refine ⟨addr, hc, haddr, by simp, ?_⟩
    rw [heapGet_append_len st.heap _ [], heapGet_append_lt _ haddr]
  | none =>
    rw [hc] at h
    repeat' split at h
    all_goals try exact finishStore_ok_cached _ _ _ _ _ h
    all_goals try (injection h with h1 h2; injection h1)
    all_goals contradiction

/-! ## Claims C4 and C5 -/

/-- Number of transport invocations recorded in a trace. -/
def countFetch (t : List Event) : Nat := (t.filter Event.isFetch).length

/-- A media object used by several concrete scenarios below. -/
def mFeed : Media where
  pk := 1
  userPk := 2
  productType := "feed".data
  payload := 0

/-- An environment whose graph strategy always fails with
`MediaNotFound` while the private strategy succeeds, so `media_info`
succeeds only through the final fallback. -/
def envFallback : Env where
  gql := fun _ => Except.error PyErr.mediaNotFound
  inject := fun _ => false
  v1 := fun _ => Except.ok mFeed
  del := fun _ => Except.ok true
  edit := fun _ => Except.ok 0
  like := fun _ => Except.ok ("ok".data)
  rand := fun _ => 0

/-- **C4 counterexample.**  The claim asserts that when the first
`media_info(pk, use_cache=True)` succeeds, the transport-invocation
total across it and an immediately repeated call is exactly one.  With a
graph strategy that fails (`MediaNotFound`) and a private strategy that
succeeds, the first call already makes two transport invocations (graph
+ private) and still succeeds; the repeated call adds none, so the total
is two, not one. -/
theorem C4_counterexample :
    ((media_info_run envFallback stFresh ("1".data) true).1
        = Except.ok 1)
    ∧ ((media_info_run envFallback
          (media_info_run envFallback stFresh ("1".data) true).2
          ("1".data) true).1 = Except.ok 2)
    ∧ countFetch (media_info_run envFallback
          (media_info_run envFallback stFresh ("1".data) true).2
          ("1".data) true).2.trace = 2 := by
  refine ⟨rfl, rfl, rfl⟩

/-- **C4 (amended).**  If `media_info(p, use_cache=True)` succeeds and is
called again with `use_cache=True` and no intervening mutation, the
second call performs zero transport invocations and no oracle calls at
all (trace and every call counter unchanged), succeeds, and returns a
fresh deep copy of the cached metadata — whose value equals the one the
first call returned.  The transport total across both calls therefore
equals that of the first call alone (one exactly when the first call
succeeded on its first graph attempt, two and more when it needed the
fallback chain, as the counterexample shows). -/
theorem C4_corrected (env : Env) (st : St) (s : List Char) (pk a : Nat)
    (st1 : St) (hWF : st.WF) (hpk : media_pk s = .ok pk)
    (h : media_info_run env st s true = (.ok a, st1)) :
    (media_info_run env st1 s true).2.trace = st1.trace
    ∧ (media_info_run env st1 s true).2.nGql = st1.nGql
    ∧ (media_info_run env st1 s true).2.nInject = st1.nInject
    ∧ (media_info_run env st1 s true).2.nV1 = st1.nV1
    ∧ (media_info_run env st1 s true).2.nPriv = st1.nPriv
    ∧ (media_info_run env st1 s true).1 = .ok st1.heap.length
    ∧ heapGet (media_info_run env st1 s true).2.heap st1.heap.length
        = heapGet st1.heap a := by
  obtain ⟨c, hc, _, _, hval⟩ :=
    media_info_run_ok_cached env st s pk a st1 hWF hpk h
  rw [media_info_run_hit env st1 s pk c hpk hc]
  refine ⟨rfl, rfl, rfl, rfl, rfl, rfl, ?_⟩
  rw [heapGet_append_len st1.heap _ []]
  exact hval.symm

/-- Instantiation of `C4_corrected`: after a successful fetch of pk 7,
the repeated call leaves the trace unchanged and returns the cached
value. -/
theorem C4_witness :
    (media_info_run envOwner42
        (media_info_run envOwner42 stFresh ("7".data) true).2
        ("7".data) true).2.trace
      = (media_info_run envOwner42 stFresh ("7".data) true).2.trace
    ∧ (media_info_run envOwner42
        (media_info_run envOwner42 stFresh ("7".data) true).2
        ("7".data) true).2.nGql
      = (media_info_run envOwner42 stFresh ("7".data) true).2.nGql :=
  have h := C4_corrected envOwner42 stFresh ("7".data) 7 1
    (media_info_run envOwner42 stFresh ("7".data) true).2
    (by decide) (by decide) (by decide)
  ⟨h.1, h.2.1⟩

/-- `media_info_run_ok_cached` for either value of `use_cache`: with
`use_cache=False` the call unconditionally takes the fetch path, which
ends in the same store-then-deep-copy sequence. -/
theorem media_info_run_ok_cached_any (env : Env) (st : St) (s : List Char)
    (pk a : Nat) (st' : St) (useCache : Bool) (hWF : st.WF)
    (hpk : media_pk s = .ok pk)
    (h : media_info_run env st s useCache = (.ok a, st')) :
    ∃ c, cacheGet st'.cache pk = some c ∧ c < a ∧ a < st'.heap.length ∧
      heapGet st'.heap a = heapGet st'.heap c := by
  cases useCache with
  | true => exact media_info_run_ok_cached env st s pk a st' hWF hpk h
  | false =>
    simp only [media_info_run, hpk, Bool.false_eq_true, if_false] at h
    repeat' split at h
    all_goals try exact finishStore_ok_cached _ _ _ _ _ h
    all_goals (injection h with h1 h2; injection h1)

/-- **C5.**  A successful `media_info` call (either `use_cache` value)
hands the caller a deep copy: the returned address differs from the
cached one, both hold equal values, and any in-place mutation of the
returned object leaves the cached entry unchanged. -/
theorem C5_deepcopy_isolation (env : Env) (st : St) (s : List Char)
    (pk a : Nat) (st' : St) (useCache : Bool) (hWF : st.WF)
    (hpk : media_pk s = .ok pk)
    (h : media_info_run env st s useCache = (.ok a, st')) :
    ∃ c, cacheGet st'.cache pk = some c ∧ a ≠ c
      ∧ heapGet st'.heap a = heapGet st'.heap c
      ∧ ∀ m', heapGet (heapSet st'.heap a m') c = heapGet st'.heap c := by
  obtain ⟨c, hc, hlt, _, hval⟩ :=
    media_info_run_ok_cached_any env st s pk a st' useCache hWF hpk h
  exact ⟨c, hc, by omega, hval,
    fun m' => heapGet_heapSet_ne _ _ _ _ (by omega)⟩

/-- Instantiation of `C5_deepcopy_isolation` on a fresh fetch of pk 7. -/
theorem C5_witness :
    ∃ c, cacheGet (media_info_run envOwner42 stFresh ("7".data) true).2.cache 7
          = some c
      ∧ 1 ≠ c
      ∧ heapGet (media_info_run envOwner42 stFresh ("7".data) true).2.heap 1
          = heapGet (media_info_run envOwner42 stFresh ("7".data) true).2.heap c
      ∧ ∀ m', heapGet
            (heapSet (media_info_run envOwner42 stFresh ("7".data) true).2.heap 1 m') c
          = heapGet (media_info_run envOwner42 stFresh ("7".data) true).2.heap c :=
  C5_deepcopy_isolation envOwner42 stFresh ("7".data) 7 1
    (media_info_run envOwner42 stFresh ("7".data) true).2 true
    (by decide) (by decide) (by decide)

/-! ## Claims C1 and C3 -/

/-- An environment where the graph strategy always demands an elevated
session and elevation always fails, while the private strategy
succeeds. -/
def envElevFail : Env where
  gql := fun _ => Except.error PyErr.clientLoginRequired
  inject := fun _ => false
  v1 := fun _ => Except.ok mFeed
  del := fun _ => Except.ok true
  edit := fun _ => Except.ok 0
  like := fun _ => Except.ok ("ok".data)
  rand := fun _ => 0

/-- **C1 counterexample.**  The claim says that when the graph strategy
fails with `LoginRequiredError` and elevation fails, the error is
re-raised to the caller and `media_info_v1` is never attempted.  In the
code the inner `raise e` lands in the outer `except Exception` handler,
which falls through to `media_info_v1`: with elevation failing and the
private strategy succeeding, `media_info` succeeds and the trace shows
the private-REST call. -/
theorem C1_counterexample :
    (media_info_run envElevFail stFresh ("1".data) true).1 = Except.ok 1
    ∧ Event.v1Call 1 ∈ (media_info_run envElevFail stFresh ("1".data) true).2.trace :=
  ⟨rfl, by decide⟩

/-- **C1 (amended).**  On a cache miss, if the graph strategy fails with
`LoginRequiredError` and `inject_sessionid_to_public` reports failure,
the re-raised error is caught by the outer handler and — being a
`ClientError`, without logging — processing falls through to the
private-REST strategy `media_info_v1`, whose outcome is what the caller
sees: success if it succeeds, its (mapped) error if it fails.  The
graph strategy is not retried, exactly one elevation attempt is made,
and the trace is precisely graph call, elevation call, private call. -/
theorem C1_corrected (env : Env) (st : St) (s : List Char) (pk : Nat)
    (hpk : media_pk s = .ok pk)
    (hmiss : cacheGet st.cache pk = none)
    (hgql : env.gql st.nGql = .error .clientLoginRequired)
    (hinj : env.inject st.nInject = false) :
    (media_info_run env st s true).2.trace
      = st.trace ++ [.gqlCall pk, .injectCall, .v1Call pk]
    ∧ (∀ m, env.v1 st.nV1 = .ok m →
        (media_info_run env st s true).1 = .ok (st.heap.length + 1))
    ∧ (∀ e, env.v1 st.nV1 = .error e →
        (media_info_run env st s true).1 = .error (v1MapErr e)) := by
  refine ⟨?_, ?_, ?_⟩
  · cases hv : env.v1 st.nV1 with
    | ok m =>
      simp [media_info_run, hpk, hmiss, media_info_gql_run, inject_run,
        media_info_v1_run, hgql, hinj, hv, finishStore_eq, PyErr.isClientError]
    | error e =>
      simp [media_info_run, hpk, hmiss, media_info_gql_run, inject_run,
        media_info_v1_run, hgql, hinj, hv, finishStore_eq, PyErr.isClientError]
  · intro m hm
    simp [media_info_run, hpk, hmiss, media_info_gql_run, inject_run,
      media_info_v1_run, hgql, hinj, hm, finishStore_eq, PyErr.isClientError]
  · intro e he
    simp [media_info_run, hpk, hmiss, media_info_gql_run, inject_run,
      media_info_v1_run, hgql, hinj, he, finishStore_eq, PyErr.isClientError]

/-- Instantiation of `C1_corrected` on a fresh client. -/
theorem C1_corrected_witness :
    (media_info_run envElevFail stFresh ("1".data) true).2.trace
      = stFresh.trace ++ [Event.gqlCall 1, Event.injectCall, Event.v1Call 1] :=
  (C1_corrected envElevFail stFresh ("1".data) 1
    (by decide) (by decide) (by decide) (by decide)).1

/-- **C3.**  On a cache miss, if the graph strategy — or its one
post-elevation retry — fails with any error other than
`LoginRequiredError`, the private-REST strategy is attempted as the
final fallback; an error that is not a `ClientError` is logged before
the fallback, a `ClientError` is not, and in either case exactly the
fallback call follows (no error is silently discarded and none blocks
the fallback). -/
theorem C3_fallback_and_logging (env : Env) (st : St) (s : List Char)
    (pk : Nat) (hpk : media_pk s = .ok pk)
    (hmiss : cacheGet st.cache pk = none) :
    (∀ e, env.gql st.nGql = .error e → e ≠ .clientLoginRequired →
      (media_info_run env st s true).2.trace
        = st.trace ++ [.gqlCall pk]
            ++ (if e.isClientError then [] else [.logged e]) ++ [.v1Call pk])
    ∧ (∀ e₂, env.gql st.nGql = .error .clientLoginRequired →
        env.inject st.nInject = true →
        env.gql (st.nGql + 1) = .error e₂ → e₂ ≠ .clientLoginRequired →
      (media_info_run env st s true).2.trace
        = st.trace ++ [.gqlCall pk, .injectCall, .gqlCall pk]
            ++ (if e₂.isClientError then [] else [.logged e₂]) ++ [.v1Call pk]) := by
  constructor
  · intro e hgql hne
    cases e <;>
      first
        | exact absurd rfl hne
        | (cases hv : env.v1 st.nV1 <;>
            simp [media_info_run, hpk, hmiss, media_info_gql_run, inject_run,
              media_info_v1_run, hgql, hv, finishStore_eq, PyErr.isClientError])
  · intro e₂ hgql hinj hgql2 hne
    cases e₂ <;>
      first
        | exact absurd rfl hne
        | (cases hv : env.v1 st.nV1 <;>
            simp [media_info_run, hpk, hmiss, media_info_gql_run, inject_run,
              media_info_v1_run, hgql, hinj, hgql2, hv, finishStore_eq,
              PyErr.isClientError])

/-- An environment whose graph strategy fails with an exception that is
not a `ClientError`. -/
def envGqlBoom : Env where
  gql := fun _ => Except.error (PyErr.otherException ("boom".data))
  inject := fun _ => false
  v1 := fun _ => Except.ok mFeed
  del := fun _ => Except.ok true
  edit := fun _ => Except.ok 0
  like := fun _ => Except.ok ("ok".data)
  rand := fun _ => 0

/-- Instantiation of `C3_fallback_and_logging`: an unrecognized graph
error is logged and the private fallback is attempted. -/
theorem C3_witness :
    (media_info_run envGqlBoom stFresh ("1".data) true).2.trace
      = stFresh.trace ++ [Event.gqlCall 1]
          ++ (if (PyErr.otherException ("boom".data)).isClientError then []
              else [Event.logged (PyErr.otherException ("boom".data))])
          ++ [Event.v1Call 1] :=
  (C3_fallback_and_logging envGqlBoom stFresh ("1".data) 1
      (by decide) (by decide)).1
    (PyErr.otherException ("boom".data)) (by decide) (by decide)

/-! ## Claims C2 and C8 -/

/-- A client state with an authenticated session and media pk 1 already
cached at heap address 0. -/
def stCached : St where
  cache := [(1, 0)]
  heap := [mFeed]
  userId := some 9
  nGql := 0
  nInject := 0
  nV1 := 0
  nPriv := 0
  nRand := 0
  trace := []

/-- An environment whose delete transport always raises a network-level
`ClientError`. -/
def envDelBoom : Env where
  gql := fun _ => Except.ok mFeed
  inject := fun _ => false
  v1 := fun _ => Except.ok mFeed
  del := fun _ => Except.error (PyErr.clientError ("network down".data))
  edit := fun _ => Except.ok 0
  like := fun _ => Except.ok ("ok".data)
  rand := fun _ => 0

/-- **C2 counterexample.**  The claim says eviction happens for delete
regardless of the transport outcome.  In `media_delete` the
`_medias_cache.pop` comes only after `private_request` returns, so when
the transport raises, the exception propagates first and the stale cache
entry for the resolved pk survives. -/
theorem C2_counterexample :
    (media_delete_run envDelBoom stCached ("1_2".data)).1
        = Except.error (PyErr.clientError ("network down".data))
    ∧ cacheGet (media_delete_run envDelBoom stCached ("1_2".data)).2.cache 1
        = some 0 :=
  ⟨rfl, rfl⟩

/-- **C2 (amended).**  `media_edit` evicts the resolved pk before its
transport call, so after an edit that reached the transport no cache
entry exists under that pk whether the call succeeded or raised (the
transport outcome is unconstrained below).  `media_delete` evicts only
after a successful transport call: after a delete whose transport
returned, no entry exists under the pk — but if delete's transport
raises, the stale entry survives (see the counterexample). -/
theorem C2_corrected (env : Env) (st : St) (idStr caption title : List Char)
    (usertags : List Usertag) (loc : Option Nat) (mid : List Char)
    (st1 : St) (a : Nat) (st2 : St) (pk : Nat) (b : Bool) :
    (truthy st.userId = true →
      media_id_run env st idStr = (.ok mid, st1) →
      media_info_run env st1 mid true = (.ok a, st2) →
      media_pk mid = .ok pk →
      cacheGet (media_edit_run env st idStr caption title usertags loc).2.cache pk
        = none)
    ∧ (truthy st.userId = true →
      media_id_run env st idStr = (.ok mid, st1) →
      media_pk mid = .ok pk →
      env.del st1.nPriv = .ok b →
      cacheGet (media_delete_run env st idStr).2.cache pk = none) := by
  constructor
  · intro ht hmid hinfo hpk
    simp [media_edit_run, ht, hmid, hinfo, hpk, cacheGet_cachePop_self]
  · intro ht hmid hpk hdel
    simp [media_delete_run, ht, hmid, hpk, hdel, cacheGet_cachePop_self]

/-- A fresh client state with an authenticated session. -/
def stAuth : St where
  cache := []
  heap := []
  userId := some 9
  nGql := 0
  nInject := 0
  nV1 := 0
  nPriv := 0
  nRand := 0
  trace := []

/-- Instantiation of `C2_corrected`: after an edit and after a
successful delete of `"7_42"`, pk 7 is absent from the cache. -/
theorem C2_witness :
    cacheGet (media_edit_run envOwner42 stAuth ("7_42".data)
        ("hi".data) ("".data) [] none).2.cache 7 = none
    ∧ cacheGet (media_delete_run envOwner42 stAuth ("7_42".data)).2.cache 7
        = none :=
  ⟨(C2_corrected envOwner42 stAuth ("7_42".data) ("hi".data) ("".data) [] none
      ("7_42".data) stAuth 1
      (media_info_run envOwner42 stAuth ("7_42".data) true).2 7 true).1
      (by decide) (by decide) (by decide) (by decide),
   (C2_corrected envOwner42 stAuth ("7_42".data) ("hi".data) ("".data) [] none
      ("7_42".data) stAuth 1
      (media_info_run envOwner42 stAuth ("7_42".data) true).2 7 true).2
      (by decide) (by decide) (by decide) (by decide)⟩

/-- **C8.**  Every mutating operation (`media_delete`, `media_edit`,
`media_like`, `media_unlike`) invoked without an authenticated session
fails on the first statement's `assert self.user_id` — synchronously,
before any normalization, network call or cache access — raising the
login-required assertion error and leaving the client state (cache,
heap, counters, trace) completely unchanged. -/
theorem C8_auth_required (env : Env) (st : St)
    (idStr caption title : List Char) (usertags : List Usertag)
    (loc : Option Nat) (revert : Bool)
    (h : truthy st.userId = false) :
    media_delete_run env st idStr
        = (.error (.assertionError ("Login required".data)), st)
    ∧ media_edit_run env st idStr caption title usertags loc
        = (.error (.assertionError ("Login required".data)), st)
    ∧ media_like_run env st idStr revert
        = (.error (.assertionError ("Login required".data)), st)
    ∧ media_unlike_run env st idStr
        = (.error (.assertionError ("Login required".data)), st) := by
  refine ⟨?_, ?_, ?_, ?_⟩ <;>
    simp [media_delete_run, media_edit_run, media_like_run,
      media_unlike_run, h]

/-- Instantiation of `C8_auth_required` on a session-less client. -/
theorem C8_witness :
    media_delete_run envOwner42 stFresh ("1_2".data)
        = (.error (.assertionError ("Login required".data)), stFresh)
    ∧ media_unlike_run envOwner42 stFresh ("1_2".data)
        = (.error (.assertionError ("Login required".data)), stFresh) :=
  have h := C8_auth_required envOwner42 stFresh ("1_2".data) ("".data)
    ("".data) [] none false (by decide)
  ⟨h.1, h.2.2.2⟩

/-! ## Claims C9 and C10 -/

/-- **C9.**  Editing long-form video (`product_type == "igtv"`) with an
empty title argument: when the caption contains a line break, the
submitted title is the caption's first line and the submitted caption is
the remainder after the first line break; when the caption contains no
line break, the submitted title is the caption's 75-character prefix and
the caption is submitted whole. -/
theorem C9_igtv_title_split (env : Env) (st : St) (idStr caption : List Char)
    (usertags : List Usertag) (loc : Option Nat) (mid : List Char)
    (st1 : St) (a : Nat) (st2 : St) (pk : Nat)
    (ht : truthy st.userId = true)
    (hmid : media_id_run env st idStr = (.ok mid, st1))
    (hinfo : media_info_run env st1 mid true = (.ok a, st2))
    (higtv : (heapGet st2.heap a).productType = "igtv".data)
    (hpk : media_pk mid = .ok pk) :
    (∀ ca cb, '\n' ∉ ca → caption = ca ++ '\n' :: cb →
      (media_edit_run env st idStr caption [] usertags loc).2.trace
        = st2.trace
            ++ [.editReq mid
                  [("caption_text".data, cb), ("title".data, ca),
                   ("igtv_ads_toggled_on".data, "0".data)]])
    ∧ ('\n' ∉ caption →
      (media_edit_run env st idStr caption [] usertags loc).2.trace
        = st2.trace
            ++ [.editReq mid
                  [("caption_text".data, caption),
                   ("title".data, caption.take 75),
                   ("igtv_ads_toggled_on".data, "0".data)]]) := by
  constructor
  · intro ca cb hnm hcap
    subst hcap
    simp [media_edit_run, ht, hmid, hinfo, higtv, hpk, igtvTitleCaption,
      splitFirst_append cb hnm]
  · intro hnm
    simp [media_edit_run, ht, hmid, hinfo, higtv, hpk, igtvTitleCaption,
      splitFirst_of_not_mem hnm]

/-- A long-form-video media object. -/
def mIgtv : Media where
  pk := 7
  userPk := 42
  productType := "igtv".data
  payload := 1

/-- An environment whose graph strategy returns the IGTV media item. -/
def envIgtv : Env where
  gql := fun _ => Except.ok mIgtv
  inject := fun _ => false
  v1 := fun _ => Except.error PyErr.mediaNotFound
  del := fun _ => Except.ok true
  edit := fun _ => Except.ok 0
  like := fun _ => Except.ok ("ok".data)
  rand := fun _ => 0

/-- Instantiation of `C9_igtv_title_split`: editing the IGTV item with
caption `"Title Line\nBody text"` and no title submits
title `"Title Line"` and caption `"Body text"`. -/
theorem C9_witness :
    (media_edit_run envIgtv stAuth ("7_42".data)
        ("Title Line\nBody text".data) [] [] none).2.trace
      = (media_info_run envIgtv stAuth ("7_42".data) true).2.trace
          ++ [Event.editReq ("7_42".data)
                [("caption_text".data, "Body text".data),
                 ("title".data, "Title Line".data),
                 ("igtv_ads_toggled_on".data, "0".data)]] :=
  (C9_igtv_title_split envIgtv stAuth ("7_42".data)
      ("Title Line\nBody text".data) [] none ("7_42".data) stAuth 1
      (media_info_run envIgtv stAuth ("7_42".data) true).2 7
      (by decide) (by decide) (by decide) (by decide) (by decide)).1
    ("Title Line".data) ("Body text".data) (by decide) (by decide)

/-- **C10.**  For an IGTV edit, the operation-specific payload submitted
to the transport has exactly the keys `caption_text`, `title` and
`igtv_ads_toggled_on`, and the `usertags` and `location` arguments have
no effect whatsoever on the call's outcome or the resulting client
state: the standard payload they are serialized into is discarded and
replaced wholesale. -/
theorem C10_igtv_payload_frame (env : Env) (st : St)
    (idStr caption title : List Char) (tags1 tags2 : List Usertag)
    (loc1 loc2 : Option Nat) (mid : List Char) (st1 : St) (a : Nat)
    (st2 : St) (pk : Nat)
    (ht : truthy st.userId = true)
    (hmid : media_id_run env st idStr = (.ok mid, st1))
    (hinfo : media_info_run env st1 mid true = (.ok a, st2))
    (higtv : (heapGet st2.heap a).productType = "igtv".data)
    (hpk : media_pk mid = .ok pk) :
    media_edit_run env st idStr caption title tags1 loc1
      = media_edit_run env st idStr caption title tags2 loc2
    ∧ ∃ payload,
        (media_edit_run env st idStr caption title tags1 loc1).2.trace
          = st2.trace ++ [.editReq mid payload]
        ∧ payload.map Prod.fst
            = ["caption_text".data, "title".data,
               "igtv_ads_toggled_on".data] := by
  constructor
  · simp [media_edit_run, ht, hmid, hinfo, higtv, hpk]
  · cases hic : igtvTitleCaption title caption with
    | mk t c =>
      refine ⟨[("caption_text".data, c), ("title".data, t),
               ("igtv_ads_toggled_on".data, "0".data)], ?_, by simp⟩
      simp [media_edit_run, ht, hmid, hinfo, higtv, hpk, hic]

/-- Instantiation of `C10_igtv_payload_frame`: a user tag and a location
argument do not change the outcome of an IGTV edit. -/
theorem C10_witness :
    media_edit_run envIgtv stAuth ("7_42".data) ("Hello".data) ("T".data)
        [{ userPk := 5, posX := "0.5".data, posY := "0.5".data }] (some 3)
      = media_edit_run envIgtv stAuth ("7_42".data) ("Hello".data) ("T".data)
          [] none :=
  (C10_igtv_payload_frame envIgtv stAuth ("7_42".data) ("Hello".data)
      ("T".data)
      [{ userPk := 5, posX := "0.5".data, posY := "0.5".data }] []
      (some 3) none ("7_42".data) stAuth 1
      (media_info_run envIgtv stAuth ("7_42".data) true).2 7
      (by decide) (by decide) (by decide) (by decide) (by decide)).1

end Instagrapi
